import Mathlib

/-!
Verification of the rusty_bike segment-integration engine and energy-aware
pacing driver.  Shallow embedding over the reals of the code in
`src/rusty_bike/src/sim/{kinematics,morton,simulation}.rs`.
Machine `f64` arithmetic is modelled by real arithmetic; the adaptive
integration loop and the pacing loop, which have no iteration cap in the
source, are given an explicit fuel parameter and return `Option` results.
-/

namespace RustyBike

noncomputable section

/-! ## kinematics.rs -/

/-- The gravitational acceleration constant (`gravity_acceleration`). -/
def gravity_acceleration : ℝ := 9.81

/-- `air_density(altitude, temperature)` from kinematics.rs: barometric formula. -/
def air_density (altitude temperature : ℝ) : ℝ :=
  (100 * 1013.25 * ((1 - 0.0065 * altitude / 288.15) ^ (5.255 : ℝ))) / (temperature + 273) / 287

/-- `velocity(kinetic_energy, total_mass)` from kinematics.rs. -/
def velocity (kinetic_energy total_mass : ℝ) : ℝ :=
  Real.sqrt (2 * |kinetic_energy| / total_mass)

/-- `kinetic_energy(velocity, total_mass)` from kinematics.rs. -/
def kinetic_energy (velocity total_mass : ℝ) : ℝ :=
  0.5 * total_mass * velocity * velocity

/-- `f64::signum` on non-NaN input: `1.0` for positive and `+0.0`, `-1.0` for negative. -/
def signum (x : ℝ) : ℝ := if x < 0 then -1 else 1

/-- `get_drag_force` from kinematics.rs. -/
def get_drag_force (velocity wind_velocity rolling_resistance air_resistance_coef total_mass : ℝ) : ℝ :=
  air_resistance_coef * |velocity + wind_velocity| * (velocity + wind_velocity)
    + rolling_resistance * gravity_acceleration * total_mass

/-- `get_total_force` from kinematics.rs. -/
def get_total_force (ke input_power rolling_resistance air_resistance_coef wind_velocity slope
    total_mass : ℝ) : ℝ :=
  input_power / velocity ke total_mass
    - signum ke *
        get_drag_force (velocity ke total_mass) wind_velocity rolling_resistance
          air_resistance_coef total_mass
    - gravity_acceleration * slope * total_mass

/-! ## morton.rs -/

/-- `RiderModel` from morton.rs. -/
structure RiderModel where
  critical_power : ℝ
  anaerobic_work_capacity : ℝ
  max_power : ℝ

/-- `default_rider_model` from morton.rs. -/
def default_rider_model : RiderModel :=
  { critical_power := 300, anaerobic_work_capacity := 20000, max_power := 1000 }

/-- The value of `f64::MAX`, used by `time_to_exhaustion` as the unbounded sentinel. -/
def f64_MAX : ℝ := 2 ^ 1024 - 2 ^ 971

/-- `time_to_exhaustion` from morton.rs. -/
def time_to_exhaustion (rider : RiderModel) (input_power current_anaerobic_reserve : ℝ) : ℝ :=
  if input_power ≤ rider.critical_power then f64_MAX
  else
    current_anaerobic_reserve / (input_power - rider.critical_power)
      + rider.anaerobic_work_capacity / (rider.critical_power - rider.max_power)

/-- `update_anaerobic_reserve` from morton.rs. -/
def update_anaerobic_reserve (rider : RiderModel)
    (input_power duration current_anaerobic_reserve : ℝ) : ℝ :=
  if input_power - rider.critical_power > 0 then
    current_anaerobic_reserve - (input_power - rider.critical_power) * duration
  else
    current_anaerobic_reserve
      + (rider.anaerobic_work_capacity - current_anaerobic_reserve)
        * (1 - Real.exp ((input_power - rider.critical_power) * duration
            / rider.anaerobic_work_capacity))

/-! ## simulation.rs -/

/-- `MIN_VELOCITY` from simulation.rs. -/
def MIN_VELOCITY : ℝ := 0.1

/-- `KINETIC_ENERGY_TOL` from simulation.rs. -/
def KINETIC_ENERGY_TOL : ℝ := 2

/-- `RoadSegment` from simulation.rs. -/
structure RoadSegment where
  length : ℝ
  altitude : ℝ
  slope : ℝ
  temperature : ℝ
  relative_wind_speed : ℝ
  roughness : ℝ

/-- `BicycleResistanceModel` from simulation.rs. -/
structure BicycleResistanceModel where
  total_mass : ℝ
  cda_surface : ℝ
  rolling_resistance : ℝ
  drivetrain_efficiency : ℝ

/-- `default_resistance_model` from simulation.rs. -/
def default_resistance_model : BicycleResistanceModel :=
  { total_mass := 80, cda_surface := 0.3, rolling_resistance := 0.004,
    drivetrain_efficiency := 0.98 }

/-- The `air_resistance_coef` computed once per segment in
`compute_time_and_final_velocity`; note the source passes the segment's
temperature as both arguments of `air_density`. -/
def air_resistance_coef (road_segment : RoadSegment)
    (resistance_model : BicycleResistanceModel) : ℝ :=
  road_segment.relative_wind_speed * resistance_model.cda_surface
    * air_density road_segment.temperature road_segment.temperature

/-- The total force computed at one iteration of the integration loop of
`compute_time_and_final_velocity`, as a function of the running velocity. -/
def loop_force (road_segment : RoadSegment) (resistance_model : BicycleResistanceModel)
    (input_power current_velocity : ℝ) : ℝ :=
  get_total_force (kinetic_energy current_velocity resistance_model.total_mass)
    (input_power * resistance_model.drivetrain_efficiency)
    (road_segment.roughness * resistance_model.rolling_resistance)
    (air_resistance_coef road_segment resistance_model)
    road_segment.relative_wind_speed road_segment.slope resistance_model.total_mass

/-- One-iteration-at-a-time embedding of the `loop` of
`compute_time_and_final_velocity`.  The source has no iteration cap, so the
loop is driven by an explicit fuel parameter; `none` means the fuel ran out
before the accumulated position reached the segment length.  State:
accumulated `time`, `position`, and `current_velocity`. -/
def integrateAux (road_segment : RoadSegment) (resistance_model : BicycleResistanceModel)
    (input_power : ℝ) : ℕ → ℝ → ℝ → ℝ → Option (ℝ × ℝ)
  | 0, _, _, _ => none
  | fuel + 1, time, position, current_velocity =>
    let ke := kinetic_energy current_velocity resistance_model.total_mass
    let force := loop_force road_segment resistance_model input_power current_velocity
    let step_size0 := KINETIC_ENERGY_TOL / (0.001 + |force|)
    let step_size :=
      if position + step_size0 > road_segment.length then road_segment.length - position
      else step_size0
    let new_velocity :=
      max MIN_VELOCITY (velocity (ke + force * step_size) resistance_model.total_mass)
    if position + step_size ≥ road_segment.length then
      some (time + (road_segment.length - position) / (0.5 * (new_velocity + current_velocity)),
        current_velocity)
    else
      integrateAux road_segment resistance_model input_power fuel
        (time + step_size / (0.5 * (new_velocity + current_velocity)))
        (position + step_size) new_velocity

/-- `compute_time_and_final_velocity` from simulation.rs (fuel-based). -/
def compute_time_and_final_velocity (fuel : ℕ) (initial_velocity input_power : ℝ)
    (road_segment : RoadSegment) (resistance_model : BicycleResistanceModel) :
    Option (ℝ × ℝ) :=
  integrateAux road_segment resistance_model input_power fuel 0 0 initial_velocity

/-- Stand-in for an out-of-bounds `road_segment_vec[i]` access (a panic in the
source); never reached on well-formed inputs where the power and segment
sequences have equal length. -/
def dummySegment : RoadSegment :=
  { length := 0, altitude := 0, slope := 0, temperature := 0, relative_wind_speed := 0,
    roughness := 0 }

/-- The re-pacing inner loop of `compute_all_times`:
`for j in i..n { if out_power_vec[i] < critical_power { break } out_power_vec[j] = critical_power }`.
`k` counts the remaining loop iterations (`n - j`), `j` is the write index.
Note the break test reads index `i`, exactly as in the source. -/
def clampIter (cp : ℝ) (i : ℕ) : ℕ → ℕ → List ℝ → List ℝ
  | 0, _, arr => arr
  | k + 1, j, arr =>
    if arr.getD i 0 < cp then arr else clampIter cp i k (j + 1) (arr.set j cp)

/-- The per-segment loop of `compute_all_times`.  `k` counts the remaining
segments (`n - i`), `i` is the current segment index; the state carries the
running velocity, running anaerobic reserve, the (mutated) power vector and
the accumulated output duration and reserve vectors plus total duration.
Returns `(total_duration, out_power_vec, out_duration_vec, out_anaerobic_reserve)`. -/
def driveLoop (F : ℕ) (segs : List RoadSegment) (rm : BicycleResistanceModel)
    (rider : RiderModel) (n : ℕ) :
    ℕ → ℕ → ℝ → ℝ → List ℝ → List ℝ → List ℝ → ℝ →
      Option (ℝ × List ℝ × List ℝ × List ℝ)
  | 0, _, _, _, powers, durs, ress, tot => some (tot, powers, durs, ress)
  | k + 1, i, v, r, powers, durs, ress, tot =>
    match compute_time_and_final_velocity F v (powers.getD i 0) (segs.getD i dummySegment) rm with
    | none => none
    | some (t, v2) =>
      if time_to_exhaustion rider (powers.getD i 0) r < t then
        match
          compute_time_and_final_velocity F v
            ((clampIter rider.critical_power i (n - i) i powers).getD i 0)
            (segs.getD i dummySegment) rm with
        | none => none
        | some (t2, v3) =>
          driveLoop F segs rm rider n k (i + 1) v3
            (update_anaerobic_reserve rider
              ((clampIter rider.critical_power i (n - i) i powers).getD i 0) t2 r)
            (clampIter rider.critical_power i (n - i) i powers)
            (durs ++ [t2])
            (ress ++ [update_anaerobic_reserve rider
              ((clampIter rider.critical_power i (n - i) i powers).getD i 0) t2 r])
            (tot + t2)
      else
        driveLoop F segs rm rider n k (i + 1) v2
          (update_anaerobic_reserve rider (powers.getD i 0) t r)
          powers
          (durs ++ [t])
          (ress ++ [update_anaerobic_reserve rider (powers.getD i 0) t r])
          (tot + t)

/-- `compute_all_times` from simulation.rs (fuel-based, fold formulation):
given initial velocity, initial anaerobic reserve, the desired power vector
and the segment vector, returns
`(total_duration, out_power_vec, out_duration_vec, out_anaerobic_reserve)`. -/
def compute_all_times (F : ℕ) (initial_velocity initial_anaerobic_reserve : ℝ)
    (input_power_vec : List ℝ) (road_segment_vec : List RoadSegment)
    (rm : BicycleResistanceModel) (rider : RiderModel) :
    Option (ℝ × List ℝ × List ℝ × List ℝ) :=
  driveLoop F road_segment_vec rm rider input_power_vec.length input_power_vec.length 0
    initial_velocity initial_anaerobic_reserve input_power_vec [] [] 0

/-- Condition of the pacing-idempotence claim: walks the segments exactly as
`compute_all_times` does and reports whether the re-pacing branch
(`tau < time`) ever triggers.  `some false` means the whole route runs with
no exhaustion event. -/
def clampTriggered (F : ℕ) (segs : List RoadSegment) (rm : BicycleResistanceModel)
    (rider : RiderModel) : ℕ → ℕ → ℝ → ℝ → List ℝ → Option Bool
  | 0, _, _, _, _ => some false
  | k + 1, i, v, r, powers =>
    match compute_time_and_final_velocity F v (powers.getD i 0) (segs.getD i dummySegment) rm with
    | none => none
    | some (t, v2) =>
      if time_to_exhaustion rider (powers.getD i 0) r < t then some true
      else
        clampTriggered F segs rm rider k (i + 1) v2
          (update_anaerobic_reserve rider (powers.getD i 0) t r) powers

end

/-! ## Theorems about the rider energy model (morton.rs) -/

/-- C4: `time_to_exhaustion` returns the `f64::MAX` sentinel whenever
`power ≤ critical_power`, and for `power > critical_power` returns exactly
`reserve/(power − critical_power) + capacity/(critical_power − max_power)`;
for the default rider model, `time_to_exhaustion(350, 20000) = 400 − 200/7`. -/
theorem time_to_exhaustion_spec :
    (∀ (rider : RiderModel) (p r : ℝ),
        (p ≤ rider.critical_power → time_to_exhaustion rider p r = f64_MAX) ∧
        (rider.critical_power < p →
          time_to_exhaustion rider p r =
            r / (p - rider.critical_power)
              + rider.anaerobic_work_capacity / (rider.critical_power - rider.max_power))) ∧
      time_to_exhaustion default_rider_model 350 20000 = 400 - 200 / 7 := by
  constructor
  · intro rider p r
    constructor
    · intro h
      simp [time_to_exhaustion, h]
    · intro h
      simp [time_to_exhaustion, not_le.mpr h]
  · norm_num [time_to_exhaustion, default_rider_model]

/-- Witness for C4 at concrete inputs. -/
theorem time_to_exhaustion_spec_witness :
    ((100 : ℝ) ≤ 300 ∧ time_to_exhaustion default_rider_model 100 5 = f64_MAX) ∧
      ((300 : ℝ) < 350 ∧
        time_to_exhaustion default_rider_model 350 20000 = 20000 / 50 + 20000 / (300 - 1000)) := by
  refine ⟨⟨by norm_num, ?_⟩, ⟨by norm_num, ?_⟩⟩
  · exact (time_to_exhaustion_spec.1 default_rider_model 100 5).1
      (by norm_num [default_rider_model])
  · rw [(time_to_exhaustion_spec.1 default_rider_model 350 20000).2
      (by norm_num [default_rider_model])]
    norm_num [default_rider_model]

/-- C5: above critical power, the anaerobic reserve depletes exactly linearly:
for `power > critical_power` and `duration ≥ 0`,
`update_anaerobic_reserve(power, duration, reserve) = reserve − (power − critical_power)·duration`. -/
theorem update_anaerobic_reserve_linear (rider : RiderModel) (p t r : ℝ)
    (hp : rider.critical_power < p) (_ht : 0 ≤ t) :
    update_anaerobic_reserve rider p t r = r - (p - rider.critical_power) * t := by
  simp [update_anaerobic_reserve, sub_pos.mpr hp]

/-- Witness for C5 at concrete inputs. -/
theorem update_anaerobic_reserve_linear_witness :
    (300 : ℝ) < 400 ∧ (0 : ℝ) ≤ 10 ∧
      update_anaerobic_reserve default_rider_model 400 10 20000 = 20000 - (400 - 300) * 10 := by
  refine ⟨by norm_num, by norm_num, ?_⟩
  have h := update_anaerobic_reserve_linear default_rider_model 400 10 20000
    (by norm_num [default_rider_model]) (by norm_num)
  simpa [default_rider_model] using h

/-- C6: at or below critical power (with the documented rider invariant
`capacity > 0`), `update_anaerobic_reserve` is monotone non-decreasing toward
capacity: the result is at least the reserve, strictly greater when
`power < critical_power`, `duration > 0` and `reserve < capacity`, equal to
the reserve when `power = critical_power`, and never exceeds capacity. -/
theorem update_anaerobic_reserve_recovery (rider : RiderModel) (p t r : ℝ)
    (hp : p ≤ rider.critical_power) (ht : 0 ≤ t)
    (hr : r ≤ rider.anaerobic_work_capacity) (hcap : 0 < rider.anaerobic_work_capacity) :
    r ≤ update_anaerobic_reserve rider p t r ∧
      (p < rider.critical_power → 0 < t → r < rider.anaerobic_work_capacity →
        r < update_anaerobic_reserve rider p t r) ∧
      (p = rider.critical_power → update_anaerobic_reserve rider p t r = r) ∧
      update_anaerobic_reserve rider p t r ≤ rider.anaerobic_work_capacity := by
  have hbranch : ¬(p - rider.critical_power > 0) := by linarith
  have hexp_le : Real.exp ((p - rider.critical_power) * t / rider.anaerobic_work_capacity) ≤ 1 := by
    rw [Real.exp_le_one_iff]
    apply div_nonpos_of_nonpos_of_nonneg _ hcap.le
    exact mul_nonpos_of_nonpos_of_nonneg (by linarith) ht
  have hexp_pos :
      0 < Real.exp ((p - rider.critical_power) * t / rider.anaerobic_work_capacity) :=
    Real.exp_pos _
  refine ⟨?_, ?_, ?_, ?_⟩
  · simp only [update_anaerobic_reserve, if_neg hbranch]
    nlinarith
  · intro hlt hpos hrlt
    have hexp_lt :
        Real.exp ((p - rider.critical_power) * t / rider.anaerobic_work_capacity) < 1 := by
      rw [Real.exp_lt_one_iff]
      apply div_neg_of_neg_of_pos _ hcap
      exact mul_neg_of_neg_of_pos (by linarith) hpos
    simp only [update_anaerobic_reserve, if_neg hbranch]
    nlinarith
  · intro heq
    simp [update_anaerobic_reserve, heq]
  · simp only [update_anaerobic_reserve, if_neg hbranch]
    nlinarith

/-- Witness for C6 at concrete inputs. -/
theorem update_anaerobic_reserve_recovery_witness :
    ((200 : ℝ) ≤ 300 ∧ (0 : ℝ) ≤ 10 ∧ (100 : ℝ) ≤ 20000 ∧ (0 : ℝ) < 20000) ∧
      (100 ≤ update_anaerobic_reserve default_rider_model 200 10 100 ∧
        ((200 : ℝ) < 300 → (0 : ℝ) < 10 → (100 : ℝ) < 20000 →
          100 < update_anaerobic_reserve default_rider_model 200 10 100) ∧
        ((200 : ℝ) = 300 → update_anaerobic_reserve default_rider_model 200 10 100 = 100) ∧
        update_anaerobic_reserve default_rider_model 200 10 100 ≤ 20000) := by
  have h := update_anaerobic_reserve_recovery default_rider_model 200 10 100
    (by norm_num [default_rider_model]) (by norm_num)
    (by norm_num [default_rider_model]) (by norm_num [default_rider_model])
  simp only [default_rider_model] at h
  exact ⟨⟨by norm_num, by norm_num, by norm_num, by norm_num⟩, h⟩

/-! ## Theorems about the segment integrator (simulation.rs) -/

/-- The integration loop never reads the segment's altitude: the source passes
the segment temperature as both arguments of `air_density`. -/
theorem integrateAux_altitude (rm : BicycleResistanceModel) (p L a1 a2 s T w ρ : ℝ) :
    ∀ (F : ℕ) (time pos vel : ℝ),
      integrateAux ⟨L, a1, s, T, w, ρ⟩ rm p F time pos vel =
        integrateAux ⟨L, a2, s, T, w, ρ⟩ rm p F time pos vel := by
  intro F
  induction F with
  | zero => intro time pos vel; rfl
  | succ k ih =>
    intro time pos vel
    simp only [integrateAux]
    rw [show loop_force ⟨L, a1, s, T, w, ρ⟩ rm p = loop_force ⟨L, a2, s, T, w, ρ⟩ rm p from rfl,
      ih]

/-- C3: two road segments that differ only in their altitude field produce
identical `(duration, exit velocity)` results from
`compute_time_and_final_velocity`, for every fuel, entry velocity, power and
resistance model: the integrator derives air density from the segment's
temperature passed as both the altitude and the temperature argument, so the
altitude field never influences the result. -/
theorem compute_time_altitude_independent (F : ℕ) (v p L a1 a2 s T w ρ : ℝ)
    (rm : BicycleResistanceModel) :
    compute_time_and_final_velocity F v p ⟨L, a1, s, T, w, ρ⟩ rm =
      compute_time_and_final_velocity F v p ⟨L, a2, s, T, w, ρ⟩ rm := by
  unfold compute_time_and_final_velocity
  exact integrateAux_altitude rm p L a1 a2 s T w ρ F 0 0 v

/-- C8: when a segment's relative wind speed is zero, the derived
`air_resistance_coef` is zero, and at every velocity the drag force reduces to
the rolling-resistance term `(roughness · rolling_resistance) · g · mass`. -/
theorem zero_wind_drag (seg : RoadSegment) (rm : BicycleResistanceModel)
    (hw : seg.relative_wind_speed = 0) :
    air_resistance_coef seg rm = 0 ∧
      ∀ v : ℝ,
        get_drag_force v seg.relative_wind_speed (seg.roughness * rm.rolling_resistance)
            (air_resistance_coef seg rm) rm.total_mass =
          seg.roughness * rm.rolling_resistance * gravity_acceleration * rm.total_mass := by
  have hc : air_resistance_coef seg rm = 0 := by
    simp [air_resistance_coef, hw]
  refine ⟨hc, fun v => ?_⟩
  simp [get_drag_force, hc, hw]

/-- Witness for C8 at a concrete flat windless segment. -/
theorem zero_wind_drag_witness :
    (RoadSegment.relative_wind_speed ⟨1000, 0, 0, 15, 0, 1⟩ = 0) ∧
      air_resistance_coef ⟨1000, 0, 0, 15, 0, 1⟩ default_resistance_model = 0 ∧
        get_drag_force 10 (RoadSegment.relative_wind_speed ⟨1000, 0, 0, 15, 0, 1⟩)
            (RoadSegment.roughness ⟨1000, 0, 0, 15, 0, 1⟩ *
              default_resistance_model.rolling_resistance)
            (air_resistance_coef ⟨1000, 0, 0, 15, 0, 1⟩ default_resistance_model)
            default_resistance_model.total_mass =
          RoadSegment.roughness ⟨1000, 0, 0, 15, 0, 1⟩ *
              default_resistance_model.rolling_resistance * gravity_acceleration *
            default_resistance_model.total_mass := by
  have h := zero_wind_drag ⟨1000, 0, 0, 15, 0, 1⟩ default_resistance_model rfl
  exact ⟨rfl, h.1, h.2 10⟩

/-- If the first adaptive step already reaches the segment end, the loop of
`compute_time_and_final_velocity` terminates in one iteration; the elapsed
time uses the trapezoidal average of the entry velocity and the updated
velocity, but the returned exit velocity is the entry velocity itself (the
running velocity is not committed on the terminating iteration). -/
theorem integrate_single_step (F : ℕ) (v p : ℝ) (seg : RoadSegment)
    (rm : BicycleResistanceModel) (hF : 1 ≤ F)
    (hstep : seg.length ≤ KINETIC_ENERGY_TOL / (0.001 + |loop_force seg rm p v|)) :
    compute_time_and_final_velocity F v p seg rm =
      some (seg.length /
          (0.5 * (max MIN_VELOCITY
              (velocity (kinetic_energy v rm.total_mass + loop_force seg rm p v * seg.length)
                rm.total_mass) + v)), v) := by
  obtain ⟨k, rfl⟩ : ∃ k, F = k + 1 := ⟨F - 1, by omega⟩
  unfold compute_time_and_final_velocity
  simp only [integrateAux]
  by_cases h1 :
      (0 : ℝ) + KINETIC_ENERGY_TOL / (0.001 + |loop_force seg rm p v|) > seg.length
  · rw [if_pos h1, if_pos (by simp), sub_zero, zero_add]
  · rw [if_neg h1]
    have heq : KINETIC_ENERGY_TOL / (0.001 + |loop_force seg rm p v|) = seg.length := by
      push_neg at h1
      linarith [h1, hstep]
    rw [heq, if_pos (by simp), sub_zero, zero_add]

/-- For a positive mass and a non-negative speed, the source's
`velocity (kinetic_energy x m) m` round-trip recovers the speed. -/
theorem velocity_kinetic_energy (m x : ℝ) (hm : 0 < m) (hx : 0 ≤ x) :
    velocity (kinetic_energy x m) m = x := by
  rw [kinetic_energy, velocity, abs_of_nonneg (by positivity),
    show 2 * (0.5 * m * x * x) / m = x ^ 2 by rw [div_eq_iff hm.ne']; ring]
  exact Real.sqrt_sq hx

/-- Closed form of the per-iteration force at a positive running velocity:
the kinetic energy is positive, so `signum` is `1` and the drag enters with
its plain sign. -/
theorem loop_force_at_speed (seg : RoadSegment) (rm : BicycleResistanceModel) (p x : ℝ)
    (hm : 0 < rm.total_mass) (hx : 0 < x) :
    loop_force seg rm p x =
      p * rm.drivetrain_efficiency / x -
        (air_resistance_coef seg rm * |x + seg.relative_wind_speed| *
            (x + seg.relative_wind_speed) +
          seg.roughness * rm.rolling_resistance * gravity_acceleration * rm.total_mass) -
        gravity_acceleration * seg.slope * rm.total_mass := by
  have hke : (0 : ℝ) ≤ kinetic_energy x rm.total_mass := by
    rw [kinetic_energy]; positivity
  rw [loop_force, get_total_force, velocity_kinetic_energy rm.total_mass x hm hx.le,
    get_drag_force, signum, if_neg (not_lt.mpr hke), one_mul]

/-- One non-terminating iteration of the integration loop: when the adaptive
step (whose size, updated velocity and force value are pinned by the
hypotheses) stops strictly short of the segment end, the loop commits the
step and recurses on the remaining fuel. -/
theorem integrate_step_continue (seg : RoadSegment) (rm : BicycleResistanceModel)
    (p f s w : ℝ) (fuel : ℕ) (t pos v : ℝ)
    (hf : loop_force seg rm p v = f)
    (hs : KINETIC_ENERGY_TOL / (0.001 + |f|) = s)
    (hw : max MIN_VELOCITY
        (velocity (kinetic_energy v rm.total_mass + f * s) rm.total_mass) = w)
    (hlt : pos + s < seg.length) :
    integrateAux seg rm p (fuel + 1) t pos v =
      integrateAux seg rm p fuel (t + s / (0.5 * (w + v))) (pos + s) w := by
  subst hf; subst hs; subst hw
  simp only [integrateAux, gt_iff_lt, ge_iff_le]
  rw [if_neg (not_lt.mpr hlt.le), if_neg (not_le.mpr hlt)]

/-- The terminating iteration of the integration loop in the clipped case:
when the adaptive step overshoots the segment end, the step is clipped to the
remaining distance, the loop breaks, and the running velocity is returned
uncommitted. -/
theorem integrate_step_last_clipped (seg : RoadSegment) (rm : BicycleResistanceModel)
    (p f s w : ℝ) (fuel : ℕ) (t pos v : ℝ)
    (hf : loop_force seg rm p v = f)
    (hs : KINETIC_ENERGY_TOL / (0.001 + |f|) = s)
    (hgt : seg.length < pos + s)
    (hw : max MIN_VELOCITY
        (velocity (kinetic_energy v rm.total_mass + f * (seg.length - pos))
          rm.total_mass) = w) :
    integrateAux seg rm p (fuel + 1) t pos v =
      some (t + (seg.length - pos) / (0.5 * (w + v)), v) := by
  subst hf; subst hs; subst hw
  simp only [integrateAux, gt_iff_lt, ge_iff_le]
  rw [if_pos hgt, if_pos (by linarith : seg.length ≤ pos + (seg.length - pos))]

/-- C2 (amended): whenever the first adaptive step already covers the whole
segment, the integrator terminates and its returned second component is the
velocity at the start of the final step — here the entry velocity itself —
not the velocity produced by the final iteration's kinetic-energy update. -/
theorem exit_velocity_is_pre_update (F : ℕ) (v p : ℝ) (seg : RoadSegment)
    (rm : BicycleResistanceModel) (hF : 1 ≤ F)
    (hstep : seg.length ≤ KINETIC_ENERGY_TOL / (0.001 + |loop_force seg rm p v|)) :
    ∃ t, compute_time_and_final_velocity F v p seg rm = some (t, v) :=
  ⟨_, integrate_single_step F v p seg rm hF hstep⟩

/-- C2 (counterexample): on a 0.044 m flat windless segment with entry
velocity 1, power 10, mass 2, the integrator finishes in one step and returns
exit velocity 1 — the velocity at the start of the final step — whereas the
velocity produced by the final iteration's kinetic-energy update (floored at
the minimum velocity) is 1.2 ≠ 1, refuting the claim that the returned second
component is the updated velocity. -/
theorem exit_velocity_counterexample :
    compute_time_and_final_velocity 1 1 10 ⟨0.044, 0, 0, 15, 0, 0⟩ ⟨2, 0.3, 0, 1⟩ =
        some (1 / 25, 1) ∧
      max MIN_VELOCITY
          (velocity
            (kinetic_energy 1 (2 : ℝ) +
              loop_force ⟨0.044, 0, 0, 15, 0, 0⟩ ⟨2, 0.3, 0, 1⟩ 10 1 * (0.044 : ℝ)) 2) =
        1.2 ∧
      (1 : ℝ) ≠ 1.2 := by
  have hforce : loop_force ⟨0.044, 0, 0, 15, 0, 0⟩ ⟨2, 0.3, 0, 1⟩ 10 1 = 10 := by
    norm_num [loop_force, get_total_force, get_drag_force, air_resistance_coef, kinetic_energy,
      velocity, signum, gravity_acceleration, Real.sqrt_one]
  have hupd :
      max MIN_VELOCITY
          (velocity
            (kinetic_energy 1 (2 : ℝ) +
              loop_force ⟨0.044, 0, 0, 15, 0, 0⟩ ⟨2, 0.3, 0, 1⟩ 10 1 * (0.044 : ℝ)) 2) =
        1.2 := by
    rw [hforce]
    have hke : kinetic_energy 1 (2 : ℝ) + 10 * (0.044 : ℝ) = 1.44 := by
      norm_num [kinetic_energy]
    rw [hke]
    have hv : velocity 1.44 2 = 1.2 := by
      rw [velocity, show 2 * |(1.44 : ℝ)| / 2 = 1.2 ^ 2 by rw [abs_of_nonneg] <;> norm_num,
        Real.sqrt_sq (by norm_num)]
    rw [hv]
    rw [max_eq_right (by norm_num [MIN_VELOCITY])]
  refine ⟨?_, hupd, by norm_num⟩
  have hstep :
      RoadSegment.length ⟨0.044, 0, 0, 15, 0, 0⟩ ≤
        KINETIC_ENERGY_TOL /
          (0.001 + |loop_force ⟨0.044, 0, 0, 15, 0, 0⟩ ⟨2, 0.3, 0, 1⟩ 10 1|) := by
    rw [hforce]
    norm_num [KINETIC_ENERGY_TOL]
  rw [integrate_single_step 1 1 10 _ _ (le_refl 1) hstep]
  simp only [show RoadSegment.length ⟨0.044, 0, 0, 15, 0, 0⟩ = (0.044 : ℝ) from rfl,
    show BicycleResistanceModel.total_mass ⟨2, 0.3, 0, 1⟩ = (2 : ℝ) from rfl]
  rw [hupd]
  norm_num

/-- Witness for the amended C2 theorem at a concrete input. -/
theorem exit_velocity_is_pre_update_witness :
    ((1 : ℕ) ≤ 1 ∧
        RoadSegment.length ⟨0.044, 0, 0, 15, 0, 0⟩ ≤
          KINETIC_ENERGY_TOL /
            (0.001 + |loop_force ⟨0.044, 0, 0, 15, 0, 0⟩ ⟨2, 0.3, 0, 1⟩ 10 1|)) ∧
      ∃ t,
        compute_time_and_final_velocity 1 1 10 ⟨0.044, 0, 0, 15, 0, 0⟩ ⟨2, 0.3, 0, 1⟩ =
          some (t, 1) := by
  have hforce : loop_force ⟨0.044, 0, 0, 15, 0, 0⟩ ⟨2, 0.3, 0, 1⟩ 10 1 = 10 := by
    norm_num [loop_force, get_total_force, get_drag_force, air_resistance_coef, kinetic_energy,
      velocity, signum, gravity_acceleration, Real.sqrt_one]
  have hstep :
      RoadSegment.length ⟨0.044, 0, 0, 15, 0, 0⟩ ≤
        KINETIC_ENERGY_TOL /
          (0.001 + |loop_force ⟨0.044, 0, 0, 15, 0, 0⟩ ⟨2, 0.3, 0, 1⟩ 10 1|) := by
    rw [hforce]
    norm_num [KINETIC_ENERGY_TOL]
  exact ⟨⟨le_refl 1, hstep⟩,
    exit_velocity_is_pre_update 1 1 10 ⟨0.044, 0, 0, 15, 0, 0⟩ ⟨2, 0.3, 0, 1⟩ (le_refl 1) hstep⟩

/-- C9 (counterexample): length-monotonicity of the integrated segment time
fails, both below and above the integrator's velocity floor.  (i) With entry
velocity −1 on an uphill segment (slope 11/218, mass 2, power 0), the 1 m
segment takes time −20/9 while the doubled 2 m segment takes strictly less:
the trapezoidal time average of a negative entry velocity and the floored
updated velocity makes elapsed time negative and non-monotonic in segment
length.  (ii) With entry velocity 10 ≥ MIN_VELOCITY, total mass 1/400, a
20 m/s tail wind (relative_wind_speed −20) and power 14893/19175, the first
adaptive step of the 1475 m segment is clipped, lands the kinetic energy
exactly on 0 and floors the updated velocity, giving time 29500/101 ≈ 292.1 s;
over the doubled 2·1475 m segment the same first step is not clipped, the run
keeps stepping (velocities 10, 5, 40), regains speed from the tail wind, and
finishes in 19735/72 ≈ 274.1 s < 29500/101 s, so monotonicity also fails above
the velocity floor whenever the run is not confined to a single step. -/
theorem length_monotonic_counterexample :
    (compute_time_and_final_velocity 1 (-1) 0 ⟨1, 0, 11 / 218, 15, 0, 0⟩ ⟨2, 0.3, 0, 1⟩ =
        some (-(20 / 9), -1) ∧
      ∃ t2 v2,
        compute_time_and_final_velocity 1 (-1) 0 ⟨2, 0, 11 / 218, 15, 0, 0⟩ ⟨2, 0.3, 0, 1⟩ =
            some (t2, v2) ∧
          t2 < -(20 / 9)) ∧
    MIN_VELOCITY ≤ 10 ∧
    compute_time_and_final_velocity 3 10 (14893 / 19175)
        ⟨1475, 0, 2027528 / 752427, 0, -20, 0⟩
        ⟨1 / 400, 1605191 / 355843750000, 0, 1⟩ =
      some (29500 / 101, 10) ∧
    compute_time_and_final_velocity 3 10 (14893 / 19175)
        ⟨2 * 1475, 0, 2027528 / 752427, 0, -20, 0⟩
        ⟨1 / 400, 1605191 / 355843750000, 0, 1⟩ =
      some (19735 / 72, 40) ∧
    (19735 / 72 : ℝ) < 29500 / 101 := by
  have hforce : loop_force ⟨1, 0, 11 / 218, 15, 0, 0⟩ ⟨2, 0.3, 0, 1⟩ 0 (-1) = -0.99 := by
    norm_num [loop_force, get_total_force, get_drag_force, air_resistance_coef, kinetic_energy,
      velocity, signum, gravity_acceleration, Real.sqrt_one]
  have hforce2 : loop_force ⟨2, 0, 11 / 218, 15, 0, 0⟩ ⟨2, 0.3, 0, 1⟩ 0 (-1) = -0.99 := hforce
  have hρ : air_density 0 0 = 101325 / 78351 := by
    rw [air_density, show (1 : ℝ) - 0.0065 * 0 / 288.15 = 1 by norm_num, Real.one_rpow]
    norm_num
  have hcoef : air_resistance_coef ⟨1475, 0, 2027528 / 752427, 0, -20, 0⟩
      ⟨1 / 400, 1605191 / 355843750000, 0, 1⟩ = -(5593 / 47937500) := by
    rw [air_resistance_coef]
    simp only [show RoadSegment.relative_wind_speed ⟨1475, 0, 2027528 / 752427, 0, -20, 0⟩ =
        (-20 : ℝ) from rfl,
      show BicycleResistanceModel.cda_surface ⟨1 / 400, 1605191 / 355843750000, 0, 1⟩ =
        (1605191 / 355843750000 : ℝ) from rfl,
      show RoadSegment.temperature ⟨1475, 0, 2027528 / 752427, 0, -20, 0⟩ = (0 : ℝ) from rfl]
    rw [hρ]
    norm_num
  have hcoefb : air_resistance_coef ⟨2 * 1475, 0, 2027528 / 752427, 0, -20, 0⟩
      ⟨1 / 400, 1605191 / 355843750000, 0, 1⟩ = -(5593 / 47937500) := hcoef
  have hf10 : loop_force ⟨1475, 0, 2027528 / 752427, 0, -20, 0⟩
      ⟨1 / 400, 1605191 / 355843750000, 0, 1⟩ (14893 / 19175) 10 = -(1 / 11800) := by
    rw [loop_force_at_speed _ _ _ _ (by norm_num) (by norm_num)]
    simp only [show RoadSegment.relative_wind_speed ⟨1475, 0, 2027528 / 752427, 0, -20, 0⟩ =
        (-20 : ℝ) from rfl,
      show RoadSegment.roughness ⟨1475, 0, 2027528 / 752427, 0, -20, 0⟩ = (0 : ℝ) from rfl,
      show RoadSegment.slope ⟨1475, 0, 2027528 / 752427, 0, -20, 0⟩ =
        (2027528 / 752427 : ℝ) from rfl,
      show BicycleResistanceModel.total_mass ⟨1 / 400, 1605191 / 355843750000, 0, 1⟩ =
        (1 / 400 : ℝ) from rfl,
      show BicycleResistanceModel.rolling_resistance ⟨1 / 400, 1605191 / 355843750000, 0, 1⟩ =
        (0 : ℝ) from rfl,
      show BicycleResistanceModel.drivetrain_efficiency ⟨1 / 400, 1605191 / 355843750000, 0, 1⟩ =
        (1 : ℝ) from rfl, hcoef]
    rw [show (10 : ℝ) + -20 = -10 by norm_num, abs_neg,
      abs_of_nonneg (by norm_num : (0 : ℝ) ≤ 10), gravity_acceleration]
    norm_num
  have hf10b : loop_force ⟨2 * 1475, 0, 2027528 / 752427, 0, -20, 0⟩
      ⟨1 / 400, 1605191 / 355843750000, 0, 1⟩ (14893 / 19175) 10 = -(1 / 11800) := hf10
  have hf5 : loop_force ⟨2 * 1475, 0, 2027528 / 752427, 0, -20, 0⟩
      ⟨1 / 400, 1605191 / 355843750000, 0, 1⟩ (14893 / 19175) 5 = 63 / 1000 := by
    rw [loop_force_at_speed _ _ _ _ (by norm_num) (by norm_num)]
    simp only [show RoadSegment.relative_wind_speed ⟨2 * 1475, 0, 2027528 / 752427, 0, -20, 0⟩ =
        (-20 : ℝ) from rfl,
      show RoadSegment.roughness ⟨2 * 1475, 0, 2027528 / 752427, 0, -20, 0⟩ = (0 : ℝ) from rfl,
      show RoadSegment.slope ⟨2 * 1475, 0, 2027528 / 752427, 0, -20, 0⟩ =
        (2027528 / 752427 : ℝ) from rfl,
      show BicycleResistanceModel.total_mass ⟨1 / 400, 1605191 / 355843750000, 0, 1⟩ =
        (1 / 400 : ℝ) from rfl,
      show BicycleResistanceModel.rolling_resistance ⟨1 / 400, 1605191 / 355843750000, 0, 1⟩ =
        (0 : ℝ) from rfl,
      show BicycleResistanceModel.drivetrain_efficiency ⟨1 / 400, 1605191 / 355843750000, 0, 1⟩ =
        (1 : ℝ) from rfl, hcoefb]
    rw [show (5 : ℝ) + -20 = -15 by norm_num, abs_neg,
      abs_of_nonneg (by norm_num : (0 : ℝ) ≤ 15), gravity_acceleration]
    norm_num
  have hf40 : loop_force ⟨2 * 1475, 0, 2027528 / 752427, 0, -20, 0⟩
      ⟨1 / 400, 1605191 / 355843750000, 0, 1⟩ (14893 / 19175) 40 = 0 := by
    rw [loop_force_at_speed _ _ _ _ (by norm_num) (by norm_num)]
    simp only [show RoadSegment.relative_wind_speed ⟨2 * 1475, 0, 2027528 / 752427, 0, -20, 0⟩ =
        (-20 : ℝ) from rfl,
      show RoadSegment.roughness ⟨2 * 1475, 0, 2027528 / 752427, 0, -20, 0⟩ = (0 : ℝ) from rfl,
      show RoadSegment.slope ⟨2 * 1475, 0, 2027528 / 752427, 0, -20, 0⟩ =
        (2027528 / 752427 : ℝ) from rfl,
      show BicycleResistanceModel.total_mass ⟨1 / 400, 1605191 / 355843750000, 0, 1⟩ =
        (1 / 400 : ℝ) from rfl,
      show BicycleResistanceModel.rolling_resistance ⟨1 / 400, 1605191 / 355843750000, 0, 1⟩ =
        (0 : ℝ) from rfl,
      show BicycleResistanceModel.drivetrain_efficiency ⟨1 / 400, 1605191 / 355843750000, 0, 1⟩ =
        (1 : ℝ) from rfl, hcoefb]
    rw [show (40 : ℝ) + -20 = (20 : ℝ) by norm_num,
      abs_of_nonneg (by norm_num : (0 : ℝ) ≤ 20), gravity_acceleration]
    norm_num
  have hs1 : KINETIC_ENERGY_TOL / (0.001 + |(-(1 / 11800) : ℝ)|) = 7375 / 4 := by
    rw [KINETIC_ENERGY_TOL, abs_neg, abs_of_nonneg (by norm_num : (0 : ℝ) ≤ 1 / 11800)]
    norm_num
  have hs2 : KINETIC_ENERGY_TOL / (0.001 + |(63 / 1000 : ℝ)|) = 125 / 4 := by
    rw [KINETIC_ENERGY_TOL, abs_of_nonneg (by norm_num : (0 : ℝ) ≤ 63 / 1000)]
    norm_num
  have hs3 : KINETIC_ENERGY_TOL / (0.001 + |(0 : ℝ)|) = 2000 := by
    rw [KINETIC_ENERGY_TOL, abs_zero]
    norm_num
  have hw1 : max MIN_VELOCITY
      (velocity (kinetic_energy 10 (1 / 400 : ℝ) + -(1 / 11800) * (7375 / 4))
        (1 / 400 : ℝ)) = 5 := by
    rw [show kinetic_energy 10 (1 / 400 : ℝ) + -(1 / 11800) * (7375 / 4) = -(1 / 32) by
      rw [kinetic_energy]; norm_num]
    rw [velocity, show 2 * |(-(1 / 32) : ℝ)| / (1 / 400) = 5 ^ 2 by
      rw [abs_neg, abs_of_nonneg (by norm_num : (0 : ℝ) ≤ 1 / 32)]; norm_num,
      Real.sqrt_sq (by norm_num)]
    rw [MIN_VELOCITY]
    exact max_eq_right (by norm_num)
  have hw2 : max MIN_VELOCITY
      (velocity (kinetic_energy 5 (1 / 400 : ℝ) + 63 / 1000 * (125 / 4))
        (1 / 400 : ℝ)) = 40 := by
    rw [show kinetic_energy 5 (1 / 400 : ℝ) + 63 / 1000 * (125 / 4) = 2 by
      rw [kinetic_energy]; norm_num]
    rw [velocity, show 2 * |(2 : ℝ)| / (1 / 400) = 40 ^ 2 by
      rw [abs_of_nonneg (by norm_num : (0 : ℝ) ≤ 2)]; norm_num,
      Real.sqrt_sq (by norm_num)]
    rw [MIN_VELOCITY]
    exact max_eq_right (by norm_num)
  have hw3 : max MIN_VELOCITY
      (velocity (kinetic_energy 40 (1 / 400 : ℝ) +
          0 * (RoadSegment.length ⟨2 * 1475, 0, 2027528 / 752427, 0, -20, 0⟩ - 1875))
        (1 / 400 : ℝ)) = 40 := by
    rw [show kinetic_energy 40 (1 / 400 : ℝ) +
        0 * (RoadSegment.length ⟨2 * 1475, 0, 2027528 / 752427, 0, -20, 0⟩ - 1875) = 2 by
      rw [kinetic_energy]; norm_num]
    rw [velocity, show 2 * |(2 : ℝ)| / (1 / 400) = 40 ^ 2 by
      rw [abs_of_nonneg (by norm_num : (0 : ℝ) ≤ 2)]; norm_num,
      Real.sqrt_sq (by norm_num)]
    rw [MIN_VELOCITY]
    exact max_eq_right (by norm_num)
  have hwL : max MIN_VELOCITY
      (velocity (kinetic_energy 10 (1 / 400 : ℝ) +
          -(1 / 11800) * (RoadSegment.length ⟨1475, 0, 2027528 / 752427, 0, -20, 0⟩ - 0))
        (1 / 400 : ℝ)) = 0.1 := by
    rw [show kinetic_energy 10 (1 / 400 : ℝ) +
        -(1 / 11800) * (RoadSegment.length ⟨1475, 0, 2027528 / 752427, 0, -20, 0⟩ - 0) = 0 by
      rw [kinetic_energy,
        show RoadSegment.length ⟨1475, 0, 2027528 / 752427, 0, -20, 0⟩ = (1475 : ℝ) from rfl]
      norm_num]
    rw [velocity, show 2 * |(0 : ℝ)| / (1 / 400) = 0 by rw [abs_zero]; norm_num,
      Real.sqrt_zero]
    rw [MIN_VELOCITY]
    exact max_eq_left (by norm_num)
  have hgtL : RoadSegment.length ⟨1475, 0, 2027528 / 752427, 0, -20, 0⟩ <
      (0 : ℝ) + 7375 / 4 := by
    simp only [show RoadSegment.length ⟨1475, 0, 2027528 / 752427, 0, -20, 0⟩ =
      (1475 : ℝ) from rfl]
    norm_num
  have hlt1 : (0 : ℝ) + 7375 / 4 <
      RoadSegment.length ⟨2 * 1475, 0, 2027528 / 752427, 0, -20, 0⟩ := by
    simp only [show RoadSegment.length ⟨2 * 1475, 0, 2027528 / 752427, 0, -20, 0⟩ =
      (2 * 1475 : ℝ) from rfl]
    norm_num
  have hlt2 : (7375 / 4 : ℝ) + 125 / 4 <
      RoadSegment.length ⟨2 * 1475, 0, 2027528 / 752427, 0, -20, 0⟩ := by
    simp only [show RoadSegment.length ⟨2 * 1475, 0, 2027528 / 752427, 0, -20, 0⟩ =
      (2 * 1475 : ℝ) from rfl]
    norm_num
  have hgt3 : RoadSegment.length ⟨2 * 1475, 0, 2027528 / 752427, 0, -20, 0⟩ <
      (1875 : ℝ) + 2000 := by
    simp only [show RoadSegment.length ⟨2 * 1475, 0, 2027528 / 752427, 0, -20, 0⟩ =
      (2 * 1475 : ℝ) from rfl]
    norm_num
  refine ⟨⟨?_, ?_⟩, by rw [MIN_VELOCITY]; norm_num, ?_, ?_, by norm_num⟩
  · have hstep :
        RoadSegment.length ⟨1, 0, 11 / 218, 15, 0, 0⟩ ≤
          KINETIC_ENERGY_TOL /
            (0.001 + |loop_force ⟨1, 0, 11 / 218, 15, 0, 0⟩ ⟨2, 0.3, 0, 1⟩ 0 (-1)|) := by
      rw [hforce]
      norm_num [KINETIC_ENERGY_TOL, abs_of_nonneg]
    rw [integrate_single_step 1 (-1) 0 _ _ (le_refl 1) hstep]
    simp only [show RoadSegment.length ⟨1, 0, 11 / 218, 15, 0, 0⟩ = (1 : ℝ) from rfl,
      show BicycleResistanceModel.total_mass ⟨2, 0.3, 0, 1⟩ = (2 : ℝ) from rfl, hforce]
    have hke : kinetic_energy (-1) (2 : ℝ) + -0.99 * (1 : ℝ) = 0.01 := by
      norm_num [kinetic_energy]
    rw [hke]
    have hv : velocity 0.01 2 = 0.1 := by
      rw [velocity, show 2 * |(0.01 : ℝ)| / 2 = 0.1 ^ 2 by rw [abs_of_nonneg] <;> norm_num,
        Real.sqrt_sq (by norm_num)]
    rw [hv, show max MIN_VELOCITY (0.1 : ℝ) = 0.1 by rw [MIN_VELOCITY, max_self]]
    norm_num
  · have hstep2 :
        RoadSegment.length ⟨2, 0, 11 / 218, 15, 0, 0⟩ ≤
          KINETIC_ENERGY_TOL /
            (0.001 + |loop_force ⟨2, 0, 11 / 218, 15, 0, 0⟩ ⟨2, 0.3, 0, 1⟩ 0 (-1)|) := by
      rw [hforce2]
      norm_num [KINETIC_ENERGY_TOL, abs_of_nonneg]
    have h2 := integrate_single_step 1 (-1) 0 ⟨2, 0, 11 / 218, 15, 0, 0⟩ ⟨2, 0.3, 0, 1⟩
      (le_refl 1) hstep2
    refine ⟨_, -1, h2, ?_⟩
    · simp only [show RoadSegment.length ⟨2, 0, 11 / 218, 15, 0, 0⟩ = (2 : ℝ) from rfl,
        show BicycleResistanceModel.total_mass ⟨2, 0.3, 0, 1⟩ = (2 : ℝ) from rfl, hforce2]
      have hke : kinetic_energy (-1) (2 : ℝ) + -0.99 * (2 : ℝ) = -0.98 := by
        norm_num [kinetic_energy]
      rw [hke]
      have hv : velocity (-0.98) 2 = Real.sqrt 0.98 := by
        rw [velocity]
        congr 1
        rw [abs_of_nonpos (by norm_num)]
        norm_num
      rw [hv, max_eq_right ?hle]
      case hle =>
        rw [MIN_VELOCITY]
        exact (Real.le_sqrt (by norm_num) (by norm_num)).mpr (by norm_num)
      have hs0 : 0 ≤ Real.sqrt 0.98 := Real.sqrt_nonneg _
      have hs1 : Real.sqrt 0.98 < 1 := (Real.sqrt_lt' one_pos).mpr (by norm_num)
      have hd : 0.5 * (Real.sqrt 0.98 + -1) < 0 := by nlinarith
      rw [div_lt_iff_of_neg hd]
      nlinarith
  · have eL : integrateAux ⟨1475, 0, 2027528 / 752427, 0, -20, 0⟩
        ⟨1 / 400, 1605191 / 355843750000, 0, 1⟩ (14893 / 19175) 3 0 0 10 =
        some (0 + (RoadSegment.length ⟨1475, 0, 2027528 / 752427, 0, -20, 0⟩ - 0) /
          (0.5 * (0.1 + 10)), 10) :=
      integrate_step_last_clipped _ _ _ (-(1 / 11800)) (7375 / 4) 0.1 2 0 0 10
        hf10 hs1 hgtL hwL
    rw [compute_time_and_final_velocity, eL]
    simp only [show RoadSegment.length ⟨1475, 0, 2027528 / 752427, 0, -20, 0⟩ =
      (1475 : ℝ) from rfl]
    norm_num
  · have e1 : integrateAux ⟨2 * 1475, 0, 2027528 / 752427, 0, -20, 0⟩
        ⟨1 / 400, 1605191 / 355843750000, 0, 1⟩ (14893 / 19175) 3 0 0 10 =
        integrateAux ⟨2 * 1475, 0, 2027528 / 752427, 0, -20, 0⟩
          ⟨1 / 400, 1605191 / 355843750000, 0, 1⟩ (14893 / 19175) 2
          (0 + 7375 / 4 / (0.5 * (5 + 10))) (0 + 7375 / 4) 5 :=
      integrate_step_continue _ _ _ (-(1 / 11800)) (7375 / 4) 5 2 0 0 10
        hf10b hs1 hw1 hlt1
    have e2 : integrateAux ⟨2 * 1475, 0, 2027528 / 752427, 0, -20, 0⟩
        ⟨1 / 400, 1605191 / 355843750000, 0, 1⟩ (14893 / 19175) 2
          (1475 / 6) (7375 / 4) 5 =
        integrateAux ⟨2 * 1475, 0, 2027528 / 752427, 0, -20, 0⟩
          ⟨1 / 400, 1605191 / 355843750000, 0, 1⟩ (14893 / 19175) 1
          (1475 / 6 + 125 / 4 / (0.5 * (40 + 5))) (7375 / 4 + 125 / 4) 40 :=
      integrate_step_continue _ _ _ (63 / 1000) (125 / 4) 40 1 (1475 / 6) (7375 / 4) 5
        hf5 hs2 hw2 hlt2
    have e3 : integrateAux ⟨2 * 1475, 0, 2027528 / 752427, 0, -20, 0⟩
        ⟨1 / 400, 1605191 / 355843750000, 0, 1⟩ (14893 / 19175) 1
          (2225 / 9) 1875 40 =
        some (2225 / 9 +
          (RoadSegment.length ⟨2 * 1475, 0, 2027528 / 752427, 0, -20, 0⟩ - 1875) /
            (0.5 * (40 + 40)), 40) :=
      integrate_step_last_clipped _ _ _ 0 2000 40 0 (2225 / 9) 1875 40
        hf40 hs3 hgt3 hw3
    rw [compute_time_and_final_velocity, e1,
      show (0 : ℝ) + 7375 / 4 / (0.5 * (5 + 10)) = 1475 / 6 by norm_num,
      show (0 : ℝ) + 7375 / 4 = 7375 / 4 by norm_num, e2,
      show (1475 : ℝ) / 6 + 125 / 4 / (0.5 * (40 + 5)) = 2225 / 9 by norm_num,
      show (7375 : ℝ) / 4 + 125 / 4 = 1875 by norm_num, e3]
    simp only [show RoadSegment.length ⟨2 * 1475, 0, 2027528 / 752427, 0, -20, 0⟩ =
      (2 * 1475 : ℝ) from rfl]
    norm_num

/-- Core inequality behind the amended length-monotonicity claim: when the
entry velocity is at least the velocity floor, doubling the clipped step
cannot shrink the trapezoidal step time. -/
theorem single_step_time_mono (m v K f L : ℝ) (hm : 0 < m) (hv : MIN_VELOCITY ≤ v)
    (hL : 0 ≤ L) (hK : K = kinetic_energy v m) :
    L / (0.5 * (max MIN_VELOCITY (velocity (K + f * L) m) + v)) ≤
      2 * L / (0.5 * (max MIN_VELOCITY (velocity (K + f * (2 * L)) m) + v)) := by
  rw [MIN_VELOCITY] at hv ⊢
  have hv01 : (0.1 : ℝ) ≤ v := hv
  have hvnn0 : (0 : ℝ) ≤ v := by linarith
  have hKnn : 0 ≤ K := by
    rw [hK, kinetic_energy]
    nlinarith [mul_nonneg (mul_nonneg hm.le hvnn0) hvnn0]
  have hKm : 2 * K / m = v * v := by
    rw [hK, kinetic_energy]
    field_simp
    ring
  have habs : |K + f * (2 * L)| ≤ 2 * |K + f * L| + K := by
    have h1 := abs_add (2 * (K + f * L)) (-K)
    rw [abs_neg, abs_of_nonneg hKnn, abs_mul, abs_of_nonneg (by norm_num : (0 : ℝ) ≤ 2)] at h1
    have h2 : K + f * (2 * L) = 2 * (K + f * L) + -K := by ring
    rw [h2]
    exact h1
  have harg : 2 * |K + f * (2 * L)| / m ≤ 2 * (2 * |K + f * L| / m) + v * v := by
    have h1 : 2 * |K + f * (2 * L)| / m ≤ (2 * (2 * |K + f * L|) + 2 * K) / m := by
      gcongr
      linarith
    have h2 : (2 * (2 * |K + f * L|) + 2 * K) / m = 2 * (2 * |K + f * L| / m) + 2 * K / m := by
      ring
    rw [h2, hKm] at h1
    exact h1
  have hBle :
      velocity (K + f * (2 * L)) m ≤ 2 * velocity (K + f * L) m + v := by
    rw [velocity, velocity]
    have ha : 0 ≤ 2 * |K + f * L| / m := by positivity
    have hsa := Real.sq_sqrt ha
    have hsn := Real.sqrt_nonneg (2 * |K + f * L| / m)
    have hvnn : (0 : ℝ) ≤ v := by linarith
    rw [Real.sqrt_le_iff]
    constructor
    · linarith
    · nlinarith [mul_nonneg hsn hvnn]
  have hw1 : (0.1 : ℝ) ≤ max (0.1 : ℝ) (velocity (K + f * L) m) :=
    le_max_left _ _
  have hw2 : (0.1 : ℝ) ≤ max (0.1 : ℝ) (velocity (K + f * (2 * L)) m) :=
    le_max_left _ _
  have hw2le :
      max (0.1 : ℝ) (velocity (K + f * (2 * L)) m) ≤
        2 * max (0.1 : ℝ) (velocity (K + f * L) m) + v := by
    apply max_le
    · linarith
    · have h := le_max_right (0.1 : ℝ) (velocity (K + f * L) m)
      linarith [hBle]
  have hd1 : 0 < 0.5 * (max (0.1 : ℝ) (velocity (K + f * L) m) + v) := by linarith
  have hd2 : 0 < 0.5 * (max (0.1 : ℝ) (velocity (K + f * (2 * L)) m) + v) := by linarith
  rw [div_le_div_iff₀ hd1 hd2]
  have hprod :
      0 ≤ L * (2 * max (0.1 : ℝ) (velocity (K + f * L) m) + v -
        max (0.1 : ℝ) (velocity (K + f * (2 * L)) m)) :=
    mul_nonneg hL (by linarith)
  nlinarith [hprod]

/-- C9 (amended): for entry velocity at least `MIN_VELOCITY`, positive total
mass, and a segment short enough that both the original and the doubled
length are covered by the first adaptive step, doubling the segment length at
fixed power and entry velocity yields a duration at least as large.  Both
restrictions are forced by the counterexample: below the velocity floor
monotonicity fails on a single step already, and at entry velocity 10 — far
above the floor — it fails as soon as the doubled length spills into a second
adaptive step, so neither hypothesis can be dropped. -/
theorem length_monotonic_single_step (F : ℕ) (v p : ℝ) (seg : RoadSegment)
    (rm : BicycleResistanceModel) (hF : 1 ≤ F) (hm : 0 < rm.total_mass)
    (hv : MIN_VELOCITY ≤ v) (hL : 0 ≤ seg.length)
    (hstep : 2 * seg.length ≤ KINETIC_ENERGY_TOL / (0.001 + |loop_force seg rm p v|)) :
    ∃ t1 t2,
      compute_time_and_final_velocity F v p seg rm = some (t1, v) ∧
        compute_time_and_final_velocity F v p { seg with length := 2 * seg.length } rm =
          some (t2, v) ∧
        t1 ≤ t2 := by
  have hstep0 : (0 : ℝ) ≤ KINETIC_ENERGY_TOL / (0.001 + |loop_force seg rm p v|) := by
    rw [KINETIC_ENERGY_TOL]
    positivity
  have hstep1 : seg.length ≤ KINETIC_ENERGY_TOL / (0.001 + |loop_force seg rm p v|) := by
    linarith
  have hstep2 :
      RoadSegment.length { seg with length := 2 * seg.length } ≤
        KINETIC_ENERGY_TOL /
          (0.001 + |loop_force { seg with length := 2 * seg.length } rm p v|) := by
    rw [show RoadSegment.length { seg with length := 2 * seg.length } = 2 * seg.length from rfl,
      show loop_force { seg with length := 2 * seg.length } rm p v = loop_force seg rm p v
        from rfl]
    exact hstep
  have h1 := integrate_single_step F v p seg rm hF hstep1
  have h2 := integrate_single_step F v p { seg with length := 2 * seg.length } rm hF hstep2
  refine ⟨_, _, h1, h2, ?_⟩
  simp only [show RoadSegment.length { seg with length := 2 * seg.length } = 2 * seg.length
      from rfl,
    show loop_force { seg with length := 2 * seg.length } rm p v = loop_force seg rm p v
      from rfl,
    show BicycleResistanceModel.total_mass rm = rm.total_mass from rfl]
  exact single_step_time_mono rm.total_mass v (kinetic_energy v rm.total_mass)
    (loop_force seg rm p v) seg.length hm hv hL rfl

/-- Witness for the amended C9 theorem at a concrete input. -/
theorem length_monotonic_single_step_witness :
    ((1 : ℕ) ≤ 1 ∧ (0 : ℝ) < BicycleResistanceModel.total_mass ⟨2, 0.3, 0, 1⟩ ∧
        MIN_VELOCITY ≤ (1 : ℝ) ∧ (0 : ℝ) ≤ RoadSegment.length ⟨1, 0, 0, 15, 0, 0⟩ ∧
        2 * RoadSegment.length ⟨1, 0, 0, 15, 0, 0⟩ ≤
          KINETIC_ENERGY_TOL /
            (0.001 + |loop_force ⟨1, 0, 0, 15, 0, 0⟩ ⟨2, 0.3, 0, 1⟩ 0 1|)) ∧
      ∃ t1 t2,
        compute_time_and_final_velocity 1 1 0 ⟨1, 0, 0, 15, 0, 0⟩ ⟨2, 0.3, 0, 1⟩ =
            some (t1, 1) ∧
          compute_time_and_final_velocity 1 1 0
              { (⟨1, 0, 0, 15, 0, 0⟩ : RoadSegment) with
                  length := 2 * RoadSegment.length ⟨1, 0, 0, 15, 0, 0⟩ } ⟨2, 0.3, 0, 1⟩ =
            some (t2, 1) ∧
          t1 ≤ t2 := by
  have hforce : loop_force ⟨1, 0, 0, 15, 0, 0⟩ ⟨2, 0.3, 0, 1⟩ 0 1 = 0 := by
    norm_num [loop_force, get_total_force, get_drag_force, air_resistance_coef, kinetic_energy,
      velocity, signum, gravity_acceleration, Real.sqrt_one]
  have hstep :
      2 * RoadSegment.length ⟨1, 0, 0, 15, 0, 0⟩ ≤
        KINETIC_ENERGY_TOL /
          (0.001 + |loop_force ⟨1, 0, 0, 15, 0, 0⟩ ⟨2, 0.3, 0, 1⟩ 0 1|) := by
    rw [hforce]
    norm_num [KINETIC_ENERGY_TOL]
  refine ⟨⟨le_refl 1, by norm_num, by rw [MIN_VELOCITY]; norm_num, by norm_num, hstep⟩, ?_⟩
  exact length_monotonic_single_step 1 1 0 ⟨1, 0, 0, 15, 0, 0⟩ ⟨2, 0.3, 0, 1⟩ (le_refl 1)
    (by norm_num) (by rw [MIN_VELOCITY]; norm_num) (by norm_num) hstep

/-! ## Theorems about the route pacing driver (simulation.rs) -/

/-- Induction core of pacing idempotence: if the re-pacing branch never
triggers along the run, the power vector is returned unchanged. -/
theorem pacing_idempotent_aux (F : ℕ) (segs : List RoadSegment) (rm : BicycleResistanceModel)
    (rider : RiderModel) (n : ℕ) :
    ∀ (k : ℕ), ∀ (i : ℕ) (v r : ℝ) (powers durs ress : List ℝ) (tot : ℝ),
      clampTriggered F segs rm rider k i v r powers = some false →
      ∃ T ds rs,
        driveLoop F segs rm rider n k i v r powers durs ress tot = some (T, powers, ds, rs) := by
  intro k
  induction k with
  | zero =>
    intro i v r powers durs ress tot _h
    exact ⟨tot, durs, ress, rfl⟩
  | succ k ih =>
    intro i v r powers durs ress tot h
    simp only [clampTriggered] at h
    simp only [driveLoop]
    cases hint :
        compute_time_and_final_velocity F v (powers.getD i 0) (segs.getD i dummySegment) rm with
    | none =>
      rw [hint] at h
      simp at h
    | some tv =>
      obtain ⟨t, v2⟩ := tv
      rw [hint] at h
      simp only [] at h
      by_cases hτ : time_to_exhaustion rider (powers.getD i 0) r < t
      · rw [if_pos hτ] at h
        simp at h
      · rw [if_neg hτ] at h
        simp only []
        rw [if_neg hτ]
        exact ih (i + 1) v2 (update_anaerobic_reserve rider (powers.getD i 0) t r) powers
          (durs ++ [t]) (ress ++ [update_anaerobic_reserve rider (powers.getD i 0) t r])
          (tot + t) h

/-- C7 (pacing idempotence): if along the run no segment's desired power ever
causes `tau < time` (the re-pacing branch never triggers, as reported by
`clampTriggered`), then `compute_all_times` returns the desired power vector
unchanged as the actual per-segment powers. -/
theorem pacing_idempotent (F : ℕ) (segs : List RoadSegment) (rm : BicycleResistanceModel)
    (rider : RiderModel) (v r : ℝ) (powers : List ℝ)
    (h : clampTriggered F segs rm rider powers.length 0 v r powers = some false) :
    ∃ T ds rs, compute_all_times F v r powers segs rm rider = some (T, powers, ds, rs) := by
  unfold compute_all_times
  exact pacing_idempotent_aux F segs rm rider powers.length powers.length 0 v r powers [] [] 0 h

/-- Witness for C7 on a concrete one-segment route whose desired power is
below critical power, so the re-pacing branch never triggers. -/
theorem pacing_idempotent_witness :
    clampTriggered 1 [⟨0.1, 0, 0, 15, 0, 0⟩] ⟨2, 0.3, 0, 1⟩ default_rider_model 1 0 10 1
        [100] = some false ∧
      ∃ T ds rs,
        compute_all_times 1 10 1 [100] [⟨0.1, 0, 0, 15, 0, 0⟩] ⟨2, 0.3, 0, 1⟩
            default_rider_model = some (T, [100], ds, rs) := by
  have hsqrt100 : Real.sqrt 100 = 10 := by
    rw [show (100 : ℝ) = 10 ^ 2 by norm_num, Real.sqrt_sq (by norm_num)]
  have hforce : loop_force ⟨0.1, 0, 0, 15, 0, 0⟩ ⟨2, 0.3, 0, 1⟩ 100 10 = 10 := by
    norm_num [loop_force, get_total_force, get_drag_force, air_resistance_coef, kinetic_energy,
      velocity, signum, gravity_acceleration, hsqrt100]
  have hstep :
      RoadSegment.length ⟨0.1, 0, 0, 15, 0, 0⟩ ≤
        KINETIC_ENERGY_TOL /
          (0.001 + |loop_force ⟨0.1, 0, 0, 15, 0, 0⟩ ⟨2, 0.3, 0, 1⟩ 100 10|) := by
    rw [hforce]
    norm_num [KINETIC_ENERGY_TOL]
  have hrun := integrate_single_step 1 10 100 ⟨0.1, 0, 0, 15, 0, 0⟩ ⟨2, 0.3, 0, 1⟩
    (le_refl 1) hstep
  simp only [show RoadSegment.length ⟨0.1, 0, 0, 15, 0, 0⟩ = (0.1 : ℝ) from rfl,
    show BicycleResistanceModel.total_mass ⟨2, 0.3, 0, 1⟩ = (2 : ℝ) from rfl, hforce] at hrun
  have hW : (0.1 : ℝ) ≤ max MIN_VELOCITY (velocity (kinetic_energy 10 2 + 10 * 0.1) 2) := by
    have h := le_max_left MIN_VELOCITY (velocity (kinetic_energy 10 2 + 10 * 0.1) 2)
    rw [MIN_VELOCITY] at h
    exact h
  have hD : 0 < 0.5 * (max MIN_VELOCITY (velocity (kinetic_energy 10 2 + 10 * 0.1) 2) + 10) := by
    linarith
  have hfmax1 : (1 : ℝ) ≤ f64_MAX := by
    rw [f64_MAX]
    norm_num
  have hTle :
      0.1 / (0.5 * (max MIN_VELOCITY (velocity (kinetic_energy 10 2 + 10 * 0.1) 2) + 10)) ≤
        f64_MAX := by
    rw [div_le_iff₀ hD]
    nlinarith
  have htau :
      ¬(time_to_exhaustion default_rider_model 100 1 <
          0.1 / (0.5 * (max MIN_VELOCITY (velocity (kinetic_energy 10 2 + 10 * 0.1) 2) + 10))) := by
    rw [time_to_exhaustion, if_pos (by norm_num [default_rider_model])]
    exact not_lt.mpr hTle
  have hcheck :
      clampTriggered 1 [⟨0.1, 0, 0, 15, 0, 0⟩] ⟨2, 0.3, 0, 1⟩ default_rider_model 1 0 10 1
          [100] = some false := by
    simp only [clampTriggered]
    rw [show List.getD [(100 : ℝ)] 0 0 = (100 : ℝ) from rfl,
      show List.getD [(⟨0.1, 0, 0, 15, 0, 0⟩ : RoadSegment)] 0 dummySegment =
        (⟨0.1, 0, 0, 15, 0, 0⟩ : RoadSegment) from rfl]
    rw [hrun]
    simp only []
    rw [if_neg htau]
  refine ⟨hcheck, ?_⟩
  exact pacing_idempotent 1 [⟨0.1, 0, 0, 15, 0, 0⟩] ⟨2, 0.3, 0, 1⟩ default_rider_model 10 1
    [100] hcheck

/-- C1 (the re-pacing clamp as implemented): a two-segment route at desired
powers `[400, 200]` with zero initial reserve.  Segment 1 at 400 W (> the
300 W critical power) exhausts the reserve (`tau < time`), so the re-pacing
loop runs — but since its break test reads `out_power_vec[i]` (not `[j]`), it
never stops, and segment 2's desired power of 200 W, already *below* critical
power, is overwritten *up* to 300 W: the driver returns actual powers
`[300, 300]`, not the `[300, 200]` the spec's stop-at-recovery rule
describes. -/
theorem repace_clamps_below_cp_segment :
    ∃ T ds rs,
      compute_all_times 1 10 0 [400, 200]
          [⟨0.04, 0, 0, 15, 0, 0⟩, ⟨0.04, 0, 0, 15, 0, 0⟩] ⟨2, 0.3, 0, 1⟩
          default_rider_model = some (T, [300, 300], ds, rs) := by
  have hsqrt100 : Real.sqrt 100 = 10 := by
    rw [show (100 : ℝ) = 10 ^ 2 by norm_num, Real.sqrt_sq (by norm_num)]
  have hforce400 : loop_force ⟨0.04, 0, 0, 15, 0, 0⟩ ⟨2, 0.3, 0, 1⟩ 400 10 = 40 := by
    norm_num [loop_force, get_total_force, get_drag_force, air_resistance_coef, kinetic_energy,
      velocity, signum, gravity_acceleration, hsqrt100]
  have hforce300 : loop_force ⟨0.04, 0, 0, 15, 0, 0⟩ ⟨2, 0.3, 0, 1⟩ 300 10 = 30 := by
    norm_num [loop_force, get_total_force, get_drag_force, air_resistance_coef, kinetic_energy,
      velocity, signum, gravity_acceleration, hsqrt100]
  have hstep400 :
      RoadSegment.length ⟨0.04, 0, 0, 15, 0, 0⟩ ≤
        KINETIC_ENERGY_TOL /
          (0.001 + |loop_force ⟨0.04, 0, 0, 15, 0, 0⟩ ⟨2, 0.3, 0, 1⟩ 400 10|) := by
    rw [hforce400]
    norm_num [KINETIC_ENERGY_TOL]
  have hstep300 :
      RoadSegment.length ⟨0.04, 0, 0, 15, 0, 0⟩ ≤
        KINETIC_ENERGY_TOL /
          (0.001 + |loop_force ⟨0.04, 0, 0, 15, 0, 0⟩ ⟨2, 0.3, 0, 1⟩ 300 10|) := by
    rw [hforce300]
    norm_num [KINETIC_ENERGY_TOL]
  have h400 := integrate_single_step 1 10 400 ⟨0.04, 0, 0, 15, 0, 0⟩ ⟨2, 0.3, 0, 1⟩
    (le_refl 1) hstep400
  have h300 := integrate_single_step 1 10 300 ⟨0.04, 0, 0, 15, 0, 0⟩ ⟨2, 0.3, 0, 1⟩
    (le_refl 1) hstep300
  simp only [show RoadSegment.length ⟨0.04, 0, 0, 15, 0, 0⟩ = (0.04 : ℝ) from rfl,
    show BicycleResistanceModel.total_mass ⟨2, 0.3, 0, 1⟩ = (2 : ℝ) from rfl,
    hforce400, hforce300] at h400 h300
  have hW400 : (0.1 : ℝ) ≤ max MIN_VELOCITY (velocity (kinetic_energy 10 2 + 40 * 0.04) 2) := by
    have h := le_max_left MIN_VELOCITY (velocity (kinetic_energy 10 2 + 40 * 0.04) 2)
    rw [MIN_VELOCITY] at h
    exact h
  have hW300 : (0.1 : ℝ) ≤ max MIN_VELOCITY (velocity (kinetic_energy 10 2 + 30 * 0.04) 2) := by
    have h := le_max_left MIN_VELOCITY (velocity (kinetic_energy 10 2 + 30 * 0.04) 2)
    rw [MIN_VELOCITY] at h
    exact h
  have hD400 :
      0 < 0.5 * (max MIN_VELOCITY (velocity (kinetic_energy 10 2 + 40 * 0.04) 2) + 10) := by
    linarith
  have hD300 :
      0 < 0.5 * (max MIN_VELOCITY (velocity (kinetic_energy 10 2 + 30 * 0.04) 2) + 10) := by
    linarith
  have htau1 :
      time_to_exhaustion default_rider_model 400 0 <
        0.04 / (0.5 * (max MIN_VELOCITY (velocity (kinetic_energy 10 2 + 40 * 0.04) 2) + 10)) := by
    have hpos : (0 : ℝ) <
        0.04 / (0.5 * (max MIN_VELOCITY (velocity (kinetic_energy 10 2 + 40 * 0.04) 2) + 10)) :=
      div_pos (by norm_num) hD400
    rw [time_to_exhaustion, if_neg (by norm_num [default_rider_model])]
    have hval : (0 : ℝ) / (400 - default_rider_model.critical_power) +
        default_rider_model.anaerobic_work_capacity /
          (default_rider_model.critical_power - default_rider_model.max_power) = -(200 / 7) := by
      norm_num [default_rider_model]
    rw [hval]
    linarith
  have hfmax1 : (1 : ℝ) ≤ f64_MAX := by
    rw [f64_MAX]
    norm_num
  have htau2 :
      ¬(time_to_exhaustion default_rider_model 300 0 <
          0.04 / (0.5 * (max MIN_VELOCITY (velocity (kinetic_energy 10 2 + 30 * 0.04) 2) + 10))) := by
    rw [time_to_exhaustion, if_pos (by norm_num [default_rider_model])]
    rw [not_lt, div_le_iff₀ hD300]
    nlinarith
  have hclamp : clampIter 300 0 2 0 [400, 200] = ([300, 300] : List ℝ) := by
    norm_num [clampIter]
  have hupd0 : ∀ t : ℝ, update_anaerobic_reserve default_rider_model 300 t 0 = 0 := by
    intro t
    rw [update_anaerobic_reserve]
    norm_num [default_rider_model, Real.exp_zero]
  simp only [compute_all_times, List.length_cons, List.length_nil]
  simp only [driveLoop]
  rw [show List.getD [(400 : ℝ), 200] 0 0 = (400 : ℝ) from rfl,
    show List.getD [(⟨0.04, 0, 0, 15, 0, 0⟩ : RoadSegment), ⟨0.04, 0, 0, 15, 0, 0⟩] 0
      dummySegment = (⟨0.04, 0, 0, 15, 0, 0⟩ : RoadSegment) from rfl]
  rw [h400]
  simp only []
  rw [if_pos htau1]
  rw [show default_rider_model.critical_power = (300 : ℝ) from rfl]
  rw [show (0 + 1 + 1 - 0 : ℕ) = 2 from rfl]
  rw [hclamp]
  rw [show List.getD [(300 : ℝ), 300] 0 0 = (300 : ℝ) from rfl]
  rw [h300]
  simp only []
  rw [hupd0]
  rw [show List.getD [(300 : ℝ), 300] (0 + 1) 0 = (300 : ℝ) from rfl,
    show List.getD [(⟨0.04, 0, 0, 15, 0, 0⟩ : RoadSegment), ⟨0.04, 0, 0, 15, 0, 0⟩] (0 + 1)
      dummySegment = (⟨0.04, 0, 0, 15, 0, 0⟩ : RoadSegment) from rfl]
  rw [h300]
  simp only []
  rw [if_neg htau2]
  rw [hupd0]
  exact ⟨_, _, _, rfl⟩

/-- Updating at exactly critical power leaves the reserve unchanged. -/
theorem update_at_critical (rider : RiderModel) (t r : ℝ) :
    update_anaerobic_reserve rider rider.critical_power t r = r := by
  rw [update_anaerobic_reserve, if_neg (by simp)]
  simp [sub_self, Real.exp_zero]

/-- At or below critical power and non-negative duration, the recovery branch
keeps a positive reserve positive. -/
theorem update_pos_recovery (rider : RiderModel) (p t r : ℝ)
    (hp : p ≤ rider.critical_power) (ht : 0 ≤ t)
    (hcap : 0 < rider.anaerobic_work_capacity) (hr : 0 < r) :
    0 < update_anaerobic_reserve rider p t r := by
  rw [update_anaerobic_reserve, if_neg (by linarith)]
  have hepos : 0 < Real.exp ((p - rider.critical_power) * t / rider.anaerobic_work_capacity) :=
    Real.exp_pos _
  have hele : Real.exp ((p - rider.critical_power) * t / rider.anaerobic_work_capacity) ≤ 1 := by
    rw [Real.exp_le_one_iff]
    apply div_nonpos_of_nonpos_of_nonneg _ hcap.le
    exact mul_nonpos_of_nonpos_of_nonneg (by linarith) ht
  nlinarith [mul_pos hepos hr,
    mul_nonneg (by linarith : (0 : ℝ) ≤
      1 - Real.exp ((p - rider.critical_power) * t / rider.anaerobic_work_capacity)) hcap.le]

/-- Above critical power, depleting for no longer than the time to exhaustion
leaves the reserve strictly positive (the exhaustion formula has a strictly
negative constant offset). -/
theorem update_pos_depletion (rider : RiderModel) (p t r : ℝ)
    (hp : rider.critical_power < p) (hcap : 0 < rider.anaerobic_work_capacity)
    (hmp : rider.critical_power < rider.max_power) (hr : 0 < r)
    (ht : t ≤ r / (p - rider.critical_power) +
      rider.anaerobic_work_capacity / (rider.critical_power - rider.max_power)) :
    0 < update_anaerobic_reserve rider p t r := by
  rw [update_anaerobic_reserve, if_pos (by linarith)]
  have hd : 0 < p - rider.critical_power := by linarith
  have h1 : (p - rider.critical_power) * t ≤
      (p - rider.critical_power) * (r / (p - rider.critical_power) +
        rider.anaerobic_work_capacity / (rider.critical_power - rider.max_power)) :=
    mul_le_mul_of_nonneg_left ht hd.le
  have h2 : (p - rider.critical_power) * (r / (p - rider.critical_power)) = r := by
    field_simp
  have h5 : (p - rider.critical_power) *
      (rider.anaerobic_work_capacity / (rider.critical_power - rider.max_power)) < 0 :=
    mul_neg_of_pos_of_neg hd (div_neg_of_pos_of_neg hcap (by linarith))
  rw [mul_add, h2] at h1
  linarith

/-- The re-pacing loop preserves the length of the power vector. -/
theorem clampIter_length (cp : ℝ) (i : ℕ) :
    ∀ (k j : ℕ) (arr : List ℝ), (clampIter cp i k j arr).length = arr.length := by
  intro k
  induction k with
  | zero => intro j arr; rfl
  | succ k ih =>
    intro j arr
    simp only [clampIter]
    split
    · rfl
    · rw [ih]
      simp

/-- Write indices strictly beyond `i` never change entry `i`. -/
theorem clampIter_getD_gt (cp : ℝ) (i : ℕ) :
    ∀ (k j : ℕ) (arr : List ℝ), i < j →
      (clampIter cp i k j arr).getD i 0 = arr.getD i 0 := by
  intro k
  induction k with
  | zero => intro j arr _; rfl
  | succ k ih =>
    intro j arr hij
    simp only [clampIter]
    split
    · rfl
    · rw [ih (j + 1) _ (by omega)]
      simp [List.getD_eq_getElem?_getD, List.getElem?_set_ne (by omega : j ≠ i)]

/-- If entry `i` is not below critical power, the re-pacing loop started at
`i` sets entry `i` to the critical power. -/
theorem clampIter_getD_start (cp : ℝ) (i k : ℕ) (arr : List ℝ) (hlen : i < arr.length)
    (hge : ¬arr.getD i 0 < cp) :
    (clampIter cp i (k + 1) i arr).getD i 0 = cp := by
  simp only [clampIter, if_neg hge]
  rw [clampIter_getD_gt cp i k (i + 1) _ (by omega)]
  simp [List.getD_eq_getElem?_getD, List.getElem?_set_eq_of_lt cp hlen]

/-- The output duration and reserve vectors of the pacing loop extend the
accumulators it starts from. -/
theorem driveLoop_extends (F : ℕ) (segs : List RoadSegment) (rm : BicycleResistanceModel)
    (rider : RiderModel) (n : ℕ) :
    ∀ (k i : ℕ) (v r : ℝ) (powers durs ress : List ℝ) (tot T : ℝ) (ps ds rs : List ℝ),
      driveLoop F segs rm rider n k i v r powers durs ress tot = some (T, ps, ds, rs) →
      (∃ ds2, ds = durs ++ ds2) ∧ ∃ rs2, rs = ress ++ rs2 := by
  intro k
  induction k with
  | zero =>
    intro i v r powers durs ress tot T ps ds rs h
    simp only [driveLoop, Option.some.injEq, Prod.mk.injEq] at h
    obtain ⟨-, -, h3, h4⟩ := h
    exact ⟨⟨[], by rw [← h3]; simp⟩, ⟨[], by rw [← h4]; simp⟩⟩
  | succ k ih =>
    intro i v r powers durs ress tot T ps ds rs h
    simp only [driveLoop] at h
    cases hint :
        compute_time_and_final_velocity F v (powers.getD i 0) (segs.getD i dummySegment) rm with
    | none =>
      rw [hint] at h
      simp at h
    | some tv =>
      obtain ⟨t, v2⟩ := tv
      rw [hint] at h
      simp only [] at h
      by_cases hτ : time_to_exhaustion rider (powers.getD i 0) r < t
      · rw [if_pos hτ] at h
        cases hint2 :
            compute_time_and_final_velocity F v
              ((clampIter rider.critical_power i (n - i) i powers).getD i 0)
              (segs.getD i dummySegment) rm with
        | none =>
          rw [hint2] at h
          simp at h
        | some tv2 =>
          obtain ⟨t2, v3⟩ := tv2
          rw [hint2] at h
          simp only [] at h
          obtain ⟨⟨ds2, hds2⟩, ⟨rs2, hrs2⟩⟩ := ih _ _ _ _ _ _ _ _ _ _ _ h
          refine ⟨⟨[t2] ++ ds2, ?_⟩, ⟨[update_anaerobic_reserve rider
            ((clampIter rider.critical_power i (n - i) i powers).getD i 0) t2 r] ++ rs2, ?_⟩⟩
          · rw [hds2]
            simp
          · rw [hrs2]
            simp
      · rw [if_neg hτ] at h
        obtain ⟨⟨ds2, hds2⟩, ⟨rs2, hrs2⟩⟩ := ih _ _ _ _ _ _ _ _ _ _ _ h
        refine ⟨⟨[t] ++ ds2, ?_⟩,
          ⟨[update_anaerobic_reserve rider (powers.getD i 0) t r] ++ rs2, ?_⟩⟩
        · rw [hds2]
          simp
        · rw [hrs2]
          simp

/-- Induction core of the reserve-positivity invariant: provided every
recorded duration is non-negative, the running reserve and every recorded
reserve stay strictly positive. -/
theorem reserve_pos_aux (F : ℕ) (segs : List RoadSegment) (rm : BicycleResistanceModel)
    (rider : RiderModel) (n : ℕ) (hmp : rider.critical_power < rider.max_power)
    (hcap : 0 < rider.anaerobic_work_capacity) :
    ∀ (k i : ℕ) (v r : ℝ) (powers durs ress : List ℝ) (tot T : ℝ) (ps ds rs : List ℝ),
      powers.length = n → i + k = n → 0 < r →
      driveLoop F segs rm rider n k i v r powers durs ress tot = some (T, ps, ds, rs) →
      (∀ d ∈ ds, 0 ≤ d) → (∀ x ∈ ress, 0 < x) →
      ∀ x ∈ rs, 0 < x := by
  intro k
  induction k with
  | zero =>
    intro i v r powers durs ress tot T ps ds rs hlen hik hr h hds hress
    simp only [driveLoop, Option.some.injEq, Prod.mk.injEq] at h
    obtain ⟨-, -, -, h4⟩ := h
    rw [← h4]
    exact hress
  | succ k ih =>
    intro i v r powers durs ress tot T ps ds rs hlen hik hr h hds hress
    have hin : i < n := by omega
    simp only [driveLoop] at h
    cases hint :
        compute_time_and_final_velocity F v (powers.getD i 0) (segs.getD i dummySegment) rm with
    | none =>
      rw [hint] at h
      simp at h
    | some tv =>
      obtain ⟨t, v2⟩ := tv
      rw [hint] at h
      simp only [] at h
      by_cases hτ : time_to_exhaustion rider (powers.getD i 0) r < t
      · rw [if_pos hτ] at h
        cases hint2 :
            compute_time_and_final_velocity F v
              ((clampIter rider.critical_power i (n - i) i powers).getD i 0)
              (segs.getD i dummySegment) rm with
        | none =>
          rw [hint2] at h
          simp at h
        | some tv2 =>
          obtain ⟨t2, v3⟩ := tv2
          rw [hint2] at h
          simp only [] at h
          obtain ⟨⟨ds2, hds2⟩, -⟩ := driveLoop_extends F segs rm rider n _ _ _ _ _ _ _ _ _ _ _ _ h
          have ht2 : 0 ≤ t2 := by
            apply hds
            rw [hds2]
            simp
          have hnk : n - i = k + 1 := by omega
          have hr2 : 0 < update_anaerobic_reserve rider
              ((clampIter rider.critical_power i (n - i) i powers).getD i 0) t2 r := by
            by_cases hpi : powers.getD i 0 < rider.critical_power
            · have heq : clampIter rider.critical_power i (n - i) i powers = powers := by
                rw [hnk]
                simp only [clampIter, if_pos hpi]
              rw [heq]
              exact update_pos_recovery rider _ t2 r (by linarith) ht2 hcap hr
            · have heq : (clampIter rider.critical_power i (n - i) i powers).getD i 0 =
                  rider.critical_power := by
                rw [hnk]
                exact clampIter_getD_start rider.critical_power i k powers
                  (by rw [hlen]; exact hin) hpi
              rw [heq, update_at_critical]
              exact hr
          refine ih (i + 1) v3 _ _ _ _ _ _ _ _ _ ?_ (by omega) hr2 h hds ?_
          · rw [clampIter_length]
            exact hlen
          · intro x hx
            rcases List.mem_append.mp hx with hx' | hx'
            · exact hress x hx'
            · simp only [List.mem_singleton] at hx'
              rw [hx']
              exact hr2
      · rw [if_neg hτ] at h
        obtain ⟨⟨ds2, hds2⟩, -⟩ := driveLoop_extends F segs rm rider n _ _ _ _ _ _ _ _ _ _ _ _ h
        have ht : 0 ≤ t := by
          apply hds
          rw [hds2]
          simp
        have hr2 : 0 < update_anaerobic_reserve rider (powers.getD i 0) t r := by
          by_cases hp : rider.critical_power < powers.getD i 0
          · have htte : time_to_exhaustion rider (powers.getD i 0) r =
                r / (powers.getD i 0 - rider.critical_power) +
                  rider.anaerobic_work_capacity /
                    (rider.critical_power - rider.max_power) := by
              rw [time_to_exhaustion, if_neg (by linarith)]
            apply update_pos_depletion rider _ t r hp hcap hmp hr
            rw [← htte]
            exact not_lt.mp hτ
          · exact update_pos_recovery rider _ t r (by linarith) ht hcap hr
        refine ih (i + 1) v2 _ powers _ _ _ _ _ _ _ hlen (by omega) hr2 h hds ?_
        intro x hx
        rcases List.mem_append.mp hx with hx' | hx'
        · exact hress x hx'
        · simp only [List.mem_singleton] at hx'
          rw [hx']
          exact hr2

/-- C10 (amended): for a rider model with `max_power > critical_power > 0`
and positive capacity, a strictly positive initial reserve, and a run all of
whose recorded per-segment durations are non-negative (as in any physical
run), every per-segment reserve recorded by `compute_all_times` remains
strictly positive.  (As stated — with no sign condition on the durations —
the invariant is false; see the counterexample, where a negative entry
velocity makes the integrated time negative and the recovery branch drives
the reserve negative.) -/
theorem reserve_stays_positive (F : ℕ) (segs : List RoadSegment) (rm : BicycleResistanceModel)
    (rider : RiderModel) (v r0 : ℝ) (powers : List ℝ)
    (hmp : rider.critical_power < rider.max_power) (_hcp : 0 < rider.critical_power)
    (hcap : 0 < rider.anaerobic_work_capacity) (hr0 : 0 < r0)
    (T : ℝ) (ps ds rs : List ℝ)
    (hrun : compute_all_times F v r0 powers segs rm rider = some (T, ps, ds, rs))
    (hdur : ∀ d ∈ ds, 0 ≤ d) :
    ∀ x ∈ rs, 0 < x := by
  unfold compute_all_times at hrun
  exact reserve_pos_aux F segs rm rider powers.length hmp hcap powers.length 0 v r0 powers
    [] [] 0 T ps ds rs rfl (by omega) hr0 hrun hdur (by intro x hx; simp at hx)

/-- C10 (counterexample): entry velocity −10 on a steep 10 m segment makes
the integrated time −200 s; the recovery branch of the reserve update with a
negative duration then drives the recorded reserve strictly below zero even
though the rider model is well-formed and the initial reserve is 1 > 0. -/
theorem reserve_goes_negative :
    ∃ T ps ds r,
      compute_all_times 1 (-10) 1 [100] [⟨10, 0, 10199 / 19620, 15, 0, 0⟩] ⟨2, 0.3, 0, 1⟩
          default_rider_model = some (T, ps, ds, [r]) ∧ r < 0 := by
  have hsqrt100 : Real.sqrt 100 = 10 := by
    rw [show (100 : ℝ) = 10 ^ 2 by norm_num, Real.sqrt_sq (by norm_num)]
  have hforce :
      loop_force ⟨10, 0, 10199 / 19620, 15, 0, 0⟩ ⟨2, 0.3, 0, 1⟩ 100 (-10) = -0.199 := by
    norm_num [loop_force, get_total_force, get_drag_force, air_resistance_coef, kinetic_energy,
      velocity, signum, gravity_acceleration, hsqrt100]
  have hstep :
      RoadSegment.length ⟨10, 0, 10199 / 19620, 15, 0, 0⟩ ≤
        KINETIC_ENERGY_TOL /
          (0.001 + |loop_force ⟨10, 0, 10199 / 19620, 15, 0, 0⟩ ⟨2, 0.3, 0, 1⟩ 100 (-10)|) := by
    rw [hforce]
    norm_num [KINETIC_ENERGY_TOL, abs_of_nonneg]
  have hrun := integrate_single_step 1 (-10) 100 ⟨10, 0, 10199 / 19620, 15, 0, 0⟩
    ⟨2, 0.3, 0, 1⟩ (le_refl 1) hstep
  simp only [show RoadSegment.length ⟨10, 0, 10199 / 19620, 15, 0, 0⟩ = (10 : ℝ) from rfl,
    show BicycleResistanceModel.total_mass ⟨2, 0.3, 0, 1⟩ = (2 : ℝ) from rfl, hforce] at hrun
  rw [show kinetic_energy (-10) (2 : ℝ) + -0.199 * 10 = 98.01 by norm_num [kinetic_energy]]
    at hrun
  rw [show velocity 98.01 2 = 9.9 by
    rw [velocity, show 2 * |(98.01 : ℝ)| / 2 = 9.9 ^ 2 by rw [abs_of_nonneg] <;> norm_num,
      Real.sqrt_sq (by norm_num)]] at hrun
  rw [max_eq_right (by rw [MIN_VELOCITY]; norm_num : MIN_VELOCITY ≤ (9.9 : ℝ))] at hrun
  rw [show (10 : ℝ) / (0.5 * (9.9 + -10)) = -200 by norm_num] at hrun
  have htau : ¬(time_to_exhaustion default_rider_model 100 1 < (-200 : ℝ)) := by
    rw [time_to_exhaustion, if_pos (by norm_num [default_rider_model])]
    rw [not_lt, f64_MAX]
    norm_num
  have hexp : (3 : ℝ) ≤ Real.exp 2 := by
    have h := Real.add_one_le_exp (2 : ℝ)
    linarith
  have hupd : update_anaerobic_reserve default_rider_model 100 (-200) 1 =
      1 + 19999 * (1 - Real.exp 2) := by
    rw [update_anaerobic_reserve, if_neg (by norm_num [default_rider_model])]
    norm_num [default_rider_model]
  have hfin : update_anaerobic_reserve default_rider_model 100 (-200) 1 < 0 := by
    rw [hupd]
    nlinarith
  simp only [compute_all_times, List.length_cons, List.length_nil]
  simp only [driveLoop]
  rw [show List.getD [(100 : ℝ)] 0 0 = (100 : ℝ) from rfl,
    show List.getD [(⟨10, 0, 10199 / 19620, 15, 0, 0⟩ : RoadSegment)] 0 dummySegment =
      (⟨10, 0, 10199 / 19620, 15, 0, 0⟩ : RoadSegment) from rfl]
  rw [hrun]
  simp only []
  rw [if_neg htau]
  exact ⟨_, _, _, _, rfl, hfin⟩

/-- Witness for the amended C10 theorem on a concrete one-segment run. -/
theorem reserve_stays_positive_witness :
    ∃ T ps ds rs,
      compute_all_times 1 10 1 [100] [⟨0.1, 0, 0, 15, 0, 0⟩] ⟨2, 0.3, 0, 1⟩
          default_rider_model = some (T, ps, ds, rs) ∧
        (∀ d ∈ ds, 0 ≤ d) ∧ ∀ x ∈ rs, 0 < x := by
  have hsqrt100 : Real.sqrt 100 = 10 := by
    rw [show (100 : ℝ) = 10 ^ 2 by norm_num, Real.sqrt_sq (by norm_num)]
  have hforce : loop_force ⟨0.1, 0, 0, 15, 0, 0⟩ ⟨2, 0.3, 0, 1⟩ 100 10 = 10 := by
    norm_num [loop_force, get_total_force, get_drag_force, air_resistance_coef, kinetic_energy,
      velocity, signum, gravity_acceleration, hsqrt100]
  have hstep :
      RoadSegment.length ⟨0.1, 0, 0, 15, 0, 0⟩ ≤
        KINETIC_ENERGY_TOL /
          (0.001 + |loop_force ⟨0.1, 0, 0, 15, 0, 0⟩ ⟨2, 0.3, 0, 1⟩ 100 10|) := by
    rw [hforce]
    norm_num [KINETIC_ENERGY_TOL]
  have h100 := integrate_single_step 1 10 100 ⟨0.1, 0, 0, 15, 0, 0⟩ ⟨2, 0.3, 0, 1⟩
    (le_refl 1) hstep
  simp only [show RoadSegment.length ⟨0.1, 0, 0, 15, 0, 0⟩ = (0.1 : ℝ) from rfl,
    show BicycleResistanceModel.total_mass ⟨2, 0.3, 0, 1⟩ = (2 : ℝ) from rfl, hforce] at h100
  have hW : (0.1 : ℝ) ≤ max MIN_VELOCITY (velocity (kinetic_energy 10 2 + 10 * 0.1) 2) := by
    have h := le_max_left MIN_VELOCITY (velocity (kinetic_energy 10 2 + 10 * 0.1) 2)
    rw [MIN_VELOCITY] at h
    exact h
  have hD : 0 < 0.5 * (max MIN_VELOCITY (velocity (kinetic_energy 10 2 + 10 * 0.1) 2) + 10) := by
    linarith
  have hfmax1 : (1 : ℝ) ≤ f64_MAX := by
    rw [f64_MAX]
    norm_num
  have htau :
      ¬(time_to_exhaustion default_rider_model 100 1 <
          0.1 / (0.5 * (max MIN_VELOCITY (velocity (kinetic_energy 10 2 + 10 * 0.1) 2) + 10))) := by
    rw [time_to_exhaustion, if_pos (by norm_num [default_rider_model])]
    rw [not_lt, div_le_iff₀ hD]
    nlinarith
  have hrun :
      compute_all_times 1 10 1 [100] [⟨0.1, 0, 0, 15, 0, 0⟩] ⟨2, 0.3, 0, 1⟩
          default_rider_model =
        some (0 + 0.1 / (0.5 * (max MIN_VELOCITY
              (velocity (kinetic_energy 10 2 + 10 * 0.1) 2) + 10)),
          [100],
          [] ++ [0.1 / (0.5 * (max MIN_VELOCITY
              (velocity (kinetic_energy 10 2 + 10 * 0.1) 2) + 10))],
          [] ++ [update_anaerobic_reserve default_rider_model 100
            (0.1 / (0.5 * (max MIN_VELOCITY
              (velocity (kinetic_energy 10 2 + 10 * 0.1) 2) + 10))) 1]) := by
    simp only [compute_all_times, List.length_cons, List.length_nil]
    simp only [driveLoop]
    rw [show List.getD [(100 : ℝ)] 0 0 = (100 : ℝ) from rfl,
      show List.getD [(⟨0.1, 0, 0, 15, 0, 0⟩ : RoadSegment)] 0 dummySegment =
        (⟨0.1, 0, 0, 15, 0, 0⟩ : RoadSegment) from rfl]
    rw [h100]
    simp only []
    rw [if_neg htau]
  have hds : ∀ d ∈ ([] ++ [0.1 / (0.5 * (max MIN_VELOCITY
      (velocity (kinetic_energy 10 2 + 10 * 0.1) 2) + 10))] : List ℝ), 0 ≤ d := by
    intro d hd
    simp only [List.nil_append, List.mem_singleton] at hd
    rw [hd]
    exact div_nonneg (by norm_num) (by linarith)
  have hpos := reserve_stays_positive 1 [⟨0.1, 0, 0, 15, 0, 0⟩] ⟨2, 0.3, 0, 1⟩
    default_rider_model 10 1 [100]
    (by norm_num [default_rider_model]) (by norm_num [default_rider_model])
    (by norm_num [default_rider_model]) (by norm_num)
    _ _ _ _ hrun hds
  exact ⟨_, _, _, _, hrun, hds, hpos⟩

end RustyBike
